import Mathlib

/-!
Verification of the client-side invocation core of the gRPC Python runtime
(`src/python/grpcio/grpc/_channel.py`), shallowly embedded in Lean 4.

The embedding follows the source file closely:
* `OperationType` and `StatusCode` mirror the operation taxonomy and the
  public status-code enumeration.
* `RPCState` mirrors `_RPCState`; its `due` member is a Python `set`,
  modelled as a duplicate-free `List` with `setAdd` (Python `set.add`) and
  `List.erase` (Python `set.remove` on a present element).
* `abort` mirrors `_abort`, `handle_event` mirrors `_handle_event`
  (sequential processing of `event.batch_operations`; a `set.remove` of an
  absent element or a `list.extend(None)` raises in Python, modelled by the
  `Bool` error component that stops processing with the state mutated so far).
* `cancel`, `result`, the submission steps of the request-iterator pump and
  of the rendezvous `_next`, the unary invocation paths, and
  `with_wait_for_ready` are embedded as pure functions of the state they
  read and mutate.
-/

namespace GrpcChannel

/-- The six wire-operation kinds of `cygrpc.OperationType` used by
`_channel.py`. -/
inductive OperationType
  | send_initial_metadata
  | send_message
  | send_close_from_client
  | receive_initial_metadata
  | receive_message
  | receive_status_on_client
deriving DecidableEq

/-- The closed public status-code enumeration (`grpc.StatusCode`). -/
inductive StatusCode
  | ok
  | cancelled
  | unknown
  | invalid_argument
  | deadline_exceeded
  | not_found
  | already_exists
  | permission_denied
  | resource_exhausted
  | failed_precondition
  | aborted
  | out_of_range
  | unimplemented
  | internal
  | unavailable
  | data_loss
  | unauthenticated
deriving DecidableEq

/-- Metadata is a sequence of key/value pairs. -/
abbrev Metadata := List (String × String)

/-- `_RPCState`: the per-call mutable state.  Python `set` semantics for
`due` are modelled by a duplicate-free list.  `callbacks` is `none` once
drained (the source sets `state.callbacks = None`). -/
structure RPCState where
  due : List OperationType
  initial_metadata : Option Metadata
  response : Option String
  trailing_metadata : Option Metadata
  code : Option StatusCode
  details : Option String
  debug_error_string : Option String
  cancelled : Bool
  callbacks : Option (List Nat)
deriving DecidableEq

/-- Python `set.add`: a no-op when the element is already present. -/
def setAdd (s : List OperationType) (x : OperationType) : List OperationType :=
  if x ∈ s then s else x :: s

/-- `_RPCState.__init__(due, initial_metadata, trailing_metadata, code,
details)`: `due = set(due)`, `response = None`, `debug_error_string = None`,
`cancelled = False`, `callbacks = []`. -/
def mkRPCState (due : List OperationType) (initial_metadata : Option Metadata)
    (trailing_metadata : Option Metadata) (code : Option StatusCode)
    (details : Option String) : RPCState :=
  { due := due.dedup
    initial_metadata := initial_metadata
    response := none
    trailing_metadata := trailing_metadata
    code := code
    details := details
    debug_error_string := none
    cancelled := false
    callbacks := some [] }

/-- `_abort(state, code, details)`: only acts when `state.code is None`;
then records the terminal code and details, replaces a `None`
`initial_metadata` with the empty tuple, and sets `trailing_metadata` to the
empty tuple. -/
def abort (st : RPCState) (code : StatusCode) (details : String) : RPCState :=
  if st.code = none then
    { st with
      code := some code
      details := some details
      initial_metadata :=
        if st.initial_metadata = none then some [] else st.initial_metadata
      trailing_metadata := some [] }
  else st

/-- `_UNARY_UNARY_INITIAL_DUE`. -/
def UNARY_UNARY_INITIAL_DUE : List OperationType :=
  [.send_initial_metadata, .send_message, .send_close_from_client,
   .receive_initial_metadata, .receive_message, .receive_status_on_client]

/-- `_UNARY_STREAM_INITIAL_DUE`. -/
def UNARY_STREAM_INITIAL_DUE : List OperationType :=
  [.send_initial_metadata, .send_message, .send_close_from_client,
   .receive_initial_metadata, .receive_status_on_client]

/-- `_STREAM_UNARY_INITIAL_DUE`. -/
def STREAM_UNARY_INITIAL_DUE : List OperationType :=
  [.send_initial_metadata, .receive_initial_metadata, .receive_message,
   .receive_status_on_client]

/-- `_STREAM_STREAM_INITIAL_DUE`. -/
def STREAM_STREAM_INITIAL_DUE : List OperationType :=
  [.send_initial_metadata, .receive_initial_metadata,
   .receive_status_on_client]

/-- Modelled from the spec: `_common.CYGRPC_STATUS_CODE_TO_STATUS_CODE`
lives in `grpc/_common.py`, which is not part of the provided source.  §6 of
the spec gives the closed enumeration of recognised codes; transport-native
codes are the standard gRPC numbering 0–16, and any other native code has no
entry in the mapping. -/
def CYGRPC_STATUS_CODE_TO_STATUS_CODE : Nat → Option StatusCode
  | 0 => some .ok
  | 1 => some .cancelled
  | 2 => some .unknown
  | 3 => some .invalid_argument
  | 4 => some .deadline_exceeded
  | 5 => some .not_found
  | 6 => some .already_exists
  | 7 => some .permission_denied
  | 8 => some .resource_exhausted
  | 9 => some .failed_precondition
  | 10 => some .aborted
  | 11 => some .out_of_range
  | 12 => some .unimplemented
  | 13 => some .internal
  | 14 => some .unavailable
  | 15 => some .data_loss
  | 16 => some .unauthenticated
  | _ => none

/-- Python `str.format` applied to the value `_handle_event` actually passes
to `_unknown_code_details`: the result of the dictionary lookup, an
`Option StatusCode`.  `'{}'.format(None)` produces the string `None`. -/
def pyFormatLookup : Option StatusCode → String
  | none => "None"
  | some _ => "StatusCode"

/-- `_unknown_code_details(unknown_cygrpc_code, details)`. -/
def unknown_code_details (unknown_cygrpc_code : Option StatusCode)
    (details : String) : String :=
  "Server sent unknown code " ++ pyFormatLookup unknown_cygrpc_code ++
    " and details \"" ++ details ++ "\""

/-- One entry of `event.batch_operations`: the operation kind together with
the payload accessors the dispatcher reads (`initial_metadata()`,
`message()`, `trailing_metadata()`, `code()` — the transport-native numeric
code — `details()`, `error_string()`). -/
structure BatchOperation where
  type : OperationType
  initial_metadata : Metadata
  message : Option String
  trailing_metadata : Metadata
  code : Nat
  details : String
  error_string : String
deriving DecidableEq

/-- A completion event: an ordered list of completed operations. -/
structure Event where
  batch_operations : List BatchOperation
deriving DecidableEq

/-- The body of `_handle_event`'s loop for a single batch operation whose
kind has already been removed from `due`.  Returns the updated state, the
accumulated drained callbacks, and a flag that is `true` when the Python
code would raise at this point (`callbacks.extend(None)`), stopping the
loop with the mutations made so far in place. -/
def apply_batch_operation (response_deserializer : String → Option String)
    (st : RPCState) (cbs : List Nat) (op : BatchOperation) :
    RPCState × List Nat × Bool :=
  match op.type with
  | .receive_initial_metadata =>
      ({ st with initial_metadata := some op.initial_metadata }, cbs, false)
  | .receive_message =>
      match op.message with
      | none => (st, cbs, false)
      | some serialized_response =>
          match response_deserializer serialized_response with
          | none =>
              (abort st .internal "Exception deserializing response!",
               cbs, false)
          | some response => ({ st with response := some response }, cbs, false)
  | .receive_status_on_client =>
      let st1 := { st with trailing_metadata := some op.trailing_metadata }
      let st2 :=
        if st1.code = none then
          match CYGRPC_STATUS_CODE_TO_STATUS_CODE op.code with
          | none =>
              { st1 with
                code := some .unknown
                details := some (unknown_code_details
                  (CYGRPC_STATUS_CODE_TO_STATUS_CODE op.code) op.details) }
          | some code =>
              { st1 with
                code := some code
                details := some op.details
                debug_error_string := some op.error_string }
        else st1
      match st2.callbacks with
      | none => (st2, cbs, true)
      | some pending => ({ st2 with callbacks := none }, cbs ++ pending, false)
  | _ => (st, cbs, false)

/-- The loop of `_handle_event` over `event.batch_operations`.  Each
iteration first performs `state.due.remove(operation_type)`, which raises
`KeyError` when the kind is absent (error flag `true`, loop stops, state as
mutated so far). -/
def handle_event_ops (response_deserializer : String → Option String) :
    List BatchOperation → RPCState → List Nat → RPCState × List Nat × Bool
  | [], st, cbs => (st, cbs, false)
  | op :: rest, st, cbs =>
      if op.type ∈ st.due then
        let r := apply_batch_operation response_deserializer
          { st with due := st.due.erase op.type } cbs op
        if r.2.2 then r
        else handle_event_ops response_deserializer rest r.1 r.2.1
      else (st, cbs, true)

/-- `_handle_event(event, state, response_deserializer)`: returns the
updated state, the drained callbacks, and the raised-an-exception flag. -/
def handle_event (response_deserializer : String → Option String)
    (event : Event) (st : RPCState) : RPCState × List Nat × Bool :=
  handle_event_ops response_deserializer event.batch_operations st []

/-- `_Rendezvous.cancel` (lines 399–412): under the condition, if
`state.code is None`, issue the transport-level cancel, set
`state.cancelled = True`, `_abort` the state to `CANCELLED` with details
`'Locally cancelled by application!'`, notify, and return `True`; otherwise
return `False` without touching the state.  Returns the Python return value
together with the state after the call. -/
def cancel (st : RPCState) : Bool × RPCState :=
  if st.code = none then
    (true,
     abort { st with cancelled := true } .cancelled
       "Locally cancelled by application!")
  else (false, st)

/-- The observable outcome of `_MultiThreadedRendezvous.result`. -/
inductive ResultOutcome
  | timeout_err
  | ret (v : Option String)
  | cancelled_err
  | raise_self
deriving DecidableEq

/-- `_MultiThreadedRendezvous.result(timeout)` (lines 731–748), as a
function of the state observed when `_common.wait` returns and of whether
the wait timed out.  `_common.wait` itself (not in the provided source) is
modelled by its contract: it returns `True` exactly when `timeout` elapsed
before `state.code` became non-`None`. -/
def result (timed_out : Bool) (st : RPCState) : ResultOutcome :=
  if timed_out then .timeout_err
  else if st.code = some .ok then .ret st.response
  else if st.cancelled then .cancelled_err
  else .raise_self

/-- The SendMessage submission step of `_consume_request_iterator`
(lines 235–241), entered with `state.code is None`, `not state.cancelled`
and a successfully serialized request: add `send_message` to `due`, call
`call.operate`; if it returns `False`, remove `send_message` again and
return from the pump.  The `Bool` result is `true` when the pump thread
returns quietly at this point. -/
def pump_submit_send_message (operate_ok : Bool) (st : RPCState) :
    RPCState × Bool :=
  let st1 := { st with due := setAdd st.due .send_message }
  if operate_ok then (st1, false)
  else ({ st1 with due := st1.due.erase .send_message }, true)

/-- The SendCloseFromClient submission step of `_consume_request_iterator`
(lines 257–265), entered with `state.code is None` after the iterator is
exhausted: add `send_close_from_client` to `due`, call `call.operate`; if it
returns `False`, remove it again; either way the pump function then ends
quietly. -/
def pump_submit_send_close (operate_ok : Bool) (st : RPCState) : RPCState :=
  let st1 := { st with due := setAdd st.due .send_close_from_client }
  if operate_ok then st1
  else { st1 with due := st1.due.erase .send_close_from_client }

/-- The ReceiveMessage submission block shared by
`_MultiThreadedRendezvous._next` (lines 804–809) and
`_SingleThreadedRendezvous._next` (lines 637–641), entered with
`state.code is None`: add `receive_message` to `due`, call `call.operate`;
if it returns `False`, remove it again.  The block completes without
raising in either case. -/
def next_submit_receive_message (operate_ok : Bool) (st : RPCState) :
    RPCState :=
  let st1 := { st with due := setAdd st.due .receive_message }
  if operate_ok then st1
  else { st1 with due := st1.due.erase .receive_message }

/-- `_deadline(timeout)`: `None` if no timeout, else `time.time() + timeout`
(time modelled as a natural number). -/
def deadline_of (now : Nat) (timeout : Option Nat) : Option Nat :=
  timeout.map (fun t => now + t)

/-- The `_RPCState` held by the `_InactiveRpcError` that every unary-request
path raises when the request serializer returns `None`:
`_RPCState((), (), (), grpc.StatusCode.INTERNAL,
'Exception serializing request!')`. -/
def serialization_failure_state : RPCState :=
  mkRPCState [] (some []) (some []) (some .internal)
    (some "Exception serializing request!")

/-- `_start_unary_request(request, timeout, request_serializer)`
(lines 833–842): returns `(deadline, serialized_request, error)`. -/
def start_unary_request (now : Nat) (request : String) (timeout : Option Nat)
    (request_serializer : String → Option String) :
    Option Nat × Option String × Option RPCState :=
  let deadline := deadline_of now timeout
  match request_serializer request with
  | none => (deadline, none, some serialization_failure_state)
  | some serialized_request => (deadline, some serialized_request, none)

/-- How far a multicallable invocation gets: it either raises an
`_InactiveRpcError` built from the given state before any transport
interaction, or it reaches the transport by creating a segregated or an
integrated (managed) call with the given fresh RPC state. -/
inductive InvocationOutcome
  | raised (err : Option RPCState)
  | segregated_call (st : RPCState)
  | integrated_call (st : RPCState)
deriving DecidableEq

/-- `_UnaryUnaryMultiCallable._prepare` (lines 901–921): `Sum.inl` carries
`(state, deadline)` for the transport path, `Sum.inr` the rendezvous to
raise. -/
def unary_unary_prepare (now : Nat) (request : String) (timeout : Option Nat)
    (request_serializer : String → Option String) :
    (RPCState × Option Nat) ⊕ Option RPCState :=
  match start_unary_request now request timeout request_serializer with
  | (_, none, rendezvous) => Sum.inr rendezvous
  | (deadline, some _, _) =>
      Sum.inl (mkRPCState UNARY_UNARY_INITIAL_DUE none none none none,
        deadline)

/-- `_UnaryUnaryMultiCallable._blocking` (lines 923–939), up to the point
where the transport is (or is not) invoked: raise the prepared rendezvous,
or create a segregated call.  Serves `__call__` and `with_call`. -/
def unary_unary_blocking (now : Nat) (request : String) (timeout : Option Nat)
    (request_serializer : String → Option String) : InvocationOutcome :=
  match unary_unary_prepare now request timeout request_serializer with
  | Sum.inr rendezvous => .raised rendezvous
  | Sum.inl (st, _) => .segregated_call st

/-- `_UnaryUnaryMultiCallable.future` (lines 963–983), up to the point where
the transport is (or is not) invoked: raise the prepared rendezvous, or
create a managed (integrated) call. -/
def unary_unary_future (now : Nat) (request : String) (timeout : Option Nat)
    (request_serializer : String → Option String) : InvocationOutcome :=
  match unary_unary_prepare now request timeout request_serializer with
  | Sum.inr rendezvous => .raised rendezvous
  | Sum.inl (st, _) => .integrated_call st

/-- `_UnaryStreamMultiCallable.__call__` (lines 1048–1086), up to the point
where the transport is (or is not) invoked. -/
def unary_stream_call (now : Nat) (request : String) (timeout : Option Nat)
    (request_serializer : String → Option String) : InvocationOutcome :=
  match start_unary_request now request timeout request_serializer with
  | (_, none, rendezvous) => .raised rendezvous
  | (_, some _, _) =>
      .integrated_call (mkRPCState UNARY_STREAM_INITIAL_DUE none none none
        none)

/-- `_SingleThreadedUnaryStreamMultiCallable.__call__` (lines 997–1033), up
to the point where the transport is (or is not) invoked: it serializes
inline and raises an `_InactiveRpcError` over the same
`INTERNAL`/`'Exception serializing request!'` state. -/
def single_threaded_unary_stream_call (request : String)
    (request_serializer : String → Option String) : InvocationOutcome :=
  match request_serializer request with
  | none => .raised (some serialization_failure_state)
  | some _ =>
      .segregated_call (mkRPCState UNARY_STREAM_INITIAL_DUE none none none
        none)

/-- `_InitialMetadataFlags.with_wait_for_ready` (lines 1227–1235), over the
flag constants `cygrpc.InitialMetadataFlags.wait_for_ready`,
`.wait_for_ready_explicitly_set` and `.used_mask`.  Modelled from the spec:
the cygrpc constants live outside the provided source; §4.I describes them
as two distinct bits, kept within `used_mask` by the constructor
(`value &= used_mask`), so they enter as parameters here.  Python's
`self & ~wait_for_ready` on a non-negative value is `Nat.ldiff`. -/
def with_wait_for_ready (used_mask wfr wfrxs : Nat) (f : Nat) :
    Option Bool → Nat
  | none => f
  | some true => ((f ||| wfr) ||| wfrxs) &&& used_mask
  | some false => ((Nat.ldiff f wfr) ||| wfrxs) &&& used_mask

/-- Control position of the request-iterator pump thread of
`_consume_request_iterator`: about to pull/submit the next request
(`pulling`), inside the post-submission `_common.wait` (`waiting`), or
returned (`finished`). -/
inductive PumpPhase
  | pulling
  | waiting
  | finished
deriving DecidableEq

/-- A configuration of a streaming-request call: the shared `_RPCState`, the
pump thread's control position, and the number of SendMessage batches the
transport has accepted (`operate()` returned `True`) whose completion event
has not yet been dispatched — the SendMessage operations in flight. -/
structure PumpConfig where
  rpc : RPCState
  phase : PumpPhase
  outstanding_send : Nat
deriving DecidableEq

/-- The interleaved steps of the pump thread of
`_consume_request_iterator` (lines 199–265) and of the event dispatching
that touches the same state.  Environment steps (`complete_send` for a
SendMessage completion, `env` for every other event, abort or cancel) may
fire in any phase; `env` covers any state mutation that neither changes
whether `send_message ∈ due` nor leaves `due` with duplicates, which is
true of every dispatcher branch for non-SendMessage operations and of
`_abort` and `cancel`. -/
inductive PumpStep : PumpConfig → PumpConfig → Prop
  | submit_ok (s : PumpConfig)
      (hphase : s.phase = .pulling) (hcode : s.rpc.code = none)
      (hcancel : s.rpc.cancelled = false) :
      PumpStep s
        { rpc := { s.rpc with due := setAdd s.rpc.due .send_message }
          phase := .waiting
          outstanding_send := s.outstanding_send + 1 }
  | submit_refused (s : PumpConfig)
      (hphase : s.phase = .pulling) (hcode : s.rpc.code = none)
      (hcancel : s.rpc.cancelled = false) :
      PumpStep s
        { rpc := { s.rpc with
            due := (setAdd s.rpc.due .send_message).erase .send_message }
          phase := .finished
          outstanding_send := s.outstanding_send }
  | serialize_fail (s : PumpConfig)
      (hphase : s.phase = .pulling) (hcode : s.rpc.code = none)
      (hcancel : s.rpc.cancelled = false) :
      PumpStep s
        { rpc := abort s.rpc .internal "Exception serializing request!"
          phase := .finished
          outstanding_send := s.outstanding_send }
  | iterator_fail (s : PumpConfig) (hphase : s.phase = .pulling) :
      PumpStep s
        { rpc := abort s.rpc .unknown "Exception iterating requests!"
          phase := .finished
          outstanding_send := s.outstanding_send }
  | pull_terminal (s : PumpConfig) (hphase : s.phase = .pulling)
      (hterm : s.rpc.code ≠ none ∨ s.rpc.cancelled = true) :
      PumpStep s { s with phase := .finished }
  | close_submit (s : PumpConfig) (operate_ok : Bool)
      (hphase : s.phase = .pulling) (hcode : s.rpc.code = none) :
      PumpStep s
        { rpc := { s.rpc with
            due := pump_submit_send_close operate_ok s.rpc |>.due }
          phase := .finished
          outstanding_send := s.outstanding_send }
  | wake_continue (s : PumpConfig) (hphase : s.phase = .waiting)
      (hcode : s.rpc.code = none)
      (hdue : OperationType.send_message ∉ s.rpc.due) :
      PumpStep s { s with phase := .pulling }
  | wake_terminal (s : PumpConfig) (hphase : s.phase = .waiting)
      (hcode : s.rpc.code ≠ none) :
      PumpStep s { s with phase := .finished }
  | complete_send (s : PumpConfig) (n : Nat)
      (hout : s.outstanding_send = n + 1) :
      PumpStep s
        { rpc := { s.rpc with due := s.rpc.due.erase .send_message }
          phase := s.phase
          outstanding_send := n }
  | env (s : PumpConfig) (rpc2 : RPCState)
      (hmem : OperationType.send_message ∈ rpc2.due ↔
        OperationType.send_message ∈ s.rpc.due)
      (hnodup : rpc2.due.Nodup) :
      PumpStep s { s with rpc := rpc2 }

/-- The initial configuration of a streaming-request call: the fresh state
constructed by `_StreamUnaryMultiCallable` or `_StreamStreamMultiCallable`,
the pump at its first pull, nothing in flight. -/
def PumpInit (s : PumpConfig) : Prop :=
  (s.rpc = mkRPCState STREAM_UNARY_INITIAL_DUE none none none none ∨
   s.rpc = mkRPCState STREAM_STREAM_INITIAL_DUE none none none none) ∧
  s.phase = .pulling ∧ s.outstanding_send = 0

/-- Reachability under interleaved pump and dispatcher steps. -/
inductive PumpReachable : PumpConfig → Prop
  | init (s : PumpConfig) (h : PumpInit s) : PumpReachable s
  | step (s t : PumpConfig) (hs : PumpReachable s) (hstep : PumpStep s t) :
      PumpReachable t

/-- The inductive invariant behind the backpressure property. -/
def PumpInv (s : PumpConfig) : Prop :=
  s.rpc.due.Nodup ∧
  s.outstanding_send ≤ 1 ∧
  (OperationType.send_message ∈ s.rpc.due ↔ s.outstanding_send = 1) ∧
  (s.phase = .pulling → s.outstanding_send = 0)

/-- C10: every locally-triggered termination through `_abort` not only sets
`code` and `details` but also replaces a nil `initial_metadata` with the
empty tuple (preserving a non-nil one) and sets `trailing_metadata` to the
empty tuple, so after an abort of a non-terminal state `initial_metadata`,
`trailing_metadata` and `code` are all non-nil and waiters on those fields
are released. -/
theorem abort_sets_all_fields (st : RPCState) (k : StatusCode) (d : String)
    (h : st.code = none) :
    (abort st k d).code = some k ∧
    (abort st k d).details = some d ∧
    (abort st k d).trailing_metadata = some [] ∧
    (abort st k d).initial_metadata ≠ none ∧
    (st.initial_metadata = none → (abort st k d).initial_metadata = some []) ∧
    (∀ im, st.initial_metadata = some im →
      (abort st k d).initial_metadata = some im) := by
  unfold abort
  rw [if_pos h]
  refine ⟨rfl, rfl, rfl, ?_, ?_, ?_⟩
  · cases him : st.initial_metadata <;> simp [him]
  · intro him; simp [him]
  · intro im him; simp [him]

/-- Witness for C10 at the state of a fresh stream-stream call. -/
theorem abort_sets_all_fields_witness :
    (abort (mkRPCState STREAM_STREAM_INITIAL_DUE none none none none)
      .internal "boom").code = some .internal ∧
    (abort (mkRPCState STREAM_STREAM_INITIAL_DUE none none none none)
      .internal "boom").details = some "boom" ∧
    (abort (mkRPCState STREAM_STREAM_INITIAL_DUE none none none none)
      .internal "boom").trailing_metadata = some [] ∧
    (abort (mkRPCState STREAM_STREAM_INITIAL_DUE none none none none)
      .internal "boom").initial_metadata = some [] := by
  have h := abort_sets_all_fields
    (mkRPCState STREAM_STREAM_INITIAL_DUE none none none none)
    .internal "boom" rfl
  exact ⟨h.1, h.2.1, h.2.2.1, h.2.2.2.2.1 rfl⟩

/-- C8: the RPC states constructed for the four call cardinalities start
with exactly the due sets of the spec — unary→unary with all six kinds,
unary→stream with all kinds except `receive_message`, stream→unary with
`send_initial_metadata`, `receive_initial_metadata`, `receive_message`,
`receive_status_on_client`, and stream→stream with `send_initial_metadata`,
`receive_initial_metadata`, `receive_status_on_client`. -/
theorem initial_due_sets :
    (mkRPCState UNARY_UNARY_INITIAL_DUE none none none none).due.toFinset =
      {OperationType.send_initial_metadata, OperationType.send_message,
       OperationType.send_close_from_client,
       OperationType.receive_initial_metadata, OperationType.receive_message,
       OperationType.receive_status_on_client} ∧
    (mkRPCState UNARY_STREAM_INITIAL_DUE none none none none).due.toFinset =
      {OperationType.send_initial_metadata, OperationType.send_message,
       OperationType.send_close_from_client,
       OperationType.receive_initial_metadata,
       OperationType.receive_status_on_client} ∧
    (mkRPCState STREAM_UNARY_INITIAL_DUE none none none none).due.toFinset =
      {OperationType.send_initial_metadata,
       OperationType.receive_initial_metadata, OperationType.receive_message,
       OperationType.receive_status_on_client} ∧
    (mkRPCState STREAM_STREAM_INITIAL_DUE none none none none).due.toFinset =
      {OperationType.send_initial_metadata,
       OperationType.receive_initial_metadata,
       OperationType.receive_status_on_client} := by
  refine ⟨?_, ?_, ?_, ?_⟩ <;> decide

/-- C3: `cancel()` on a non-terminal state returns `True`, sets `cancelled`,
and aborts the state to `CANCELLED` with details
`'Locally cancelled by application!'`; on a terminal state it returns
`False` and leaves the state unchanged.  Consequently a second `cancel` on
the state produced by a successful one returns `False` and changes nothing,
so across N calls exactly one returns `True` and the state transitions to
`CANCELLED` exactly once. -/
theorem cancel_idempotent (st : RPCState) :
    (st.code = none →
      (cancel st).1 = true ∧
      (cancel st).2.cancelled = true ∧
      (cancel st).2.code = some .cancelled ∧
      (cancel st).2.details = some "Locally cancelled by application!" ∧
      cancel (cancel st).2 = (false, (cancel st).2)) ∧
    (st.code ≠ none → cancel st = (false, st)) := by
  constructor
  · intro h
    simp [cancel, abort, h]
  · intro h
    simp [cancel, h]

/-- Witness for C3 at a fresh unary-stream state: one `cancel` succeeds and
a second one is a no-op. -/
theorem cancel_idempotent_witness :
    (cancel (mkRPCState UNARY_STREAM_INITIAL_DUE none none none none)).1 =
      true ∧
    (cancel (mkRPCState UNARY_STREAM_INITIAL_DUE none none none
      none)).2.code = some .cancelled ∧
    cancel (cancel (mkRPCState UNARY_STREAM_INITIAL_DUE none none none
      none)).2 =
      (false,
       (cancel (mkRPCState UNARY_STREAM_INITIAL_DUE none none none none)).2) := by
  have h := (cancel_idempotent
    (mkRPCState UNARY_STREAM_INITIAL_DUE none none none none)).1 rfl
  exact ⟨h.1, h.2.2.1, h.2.2.2.2⟩

/-- C4: `_MultiThreadedRendezvous.result(timeout)` waits for a terminal
state (the wait contract of `_common.wait`); on timeout it raises
`grpc.FutureTimeoutError`; otherwise it returns the stored `response` when
the code is `OK`, raises `grpc.FutureCancelledError` when the state was
locally cancelled, and raises the rendezvous itself on any other non-OK
code. -/
theorem result_outcomes (st : RPCState) (timed_out : Bool) :
    (timed_out = true → result timed_out st = .timeout_err) ∧
    (timed_out = false → st.code = some .ok →
      result timed_out st = .ret st.response) ∧
    (timed_out = false → st.code ≠ some .ok → st.cancelled = true →
      result timed_out st = .cancelled_err) ∧
    (timed_out = false → st.code ≠ some .ok → st.cancelled = false →
      result timed_out st = .raise_self) := by
  refine ⟨?_, ?_, ?_, ?_⟩
  · intro h; simp [result, h]
  · intro h hok; simp [result, h, hok]
  · intro h hok hc; simp [result, h, hok, hc]
  · intro h hok hc; simp [result, h, hok, hc]

/-- Witness for C4: the four outcomes at concrete states. -/
theorem result_outcomes_witness :
    result true (mkRPCState [] none none none none) = .timeout_err ∧
    result false (mkRPCState [] none none (some .ok) none) = .ret none ∧
    result false
      (abort { mkRPCState [] none none none none with cancelled := true }
        .cancelled "Locally cancelled by application!") =
      .cancelled_err ∧
    result false (mkRPCState [] none none (some .unavailable) none) =
      .raise_self := by
  refine ⟨?_, ?_, ?_, ?_⟩
  · exact (result_outcomes (mkRPCState [] none none none none) true).1 rfl
  · exact (result_outcomes (mkRPCState [] none none (some .ok) none)
      false).2.1 rfl rfl
  · exact (result_outcomes
      (abort { mkRPCState [] none none none none with cancelled := true }
        .cancelled "Locally cancelled by application!") false).2.2.1 rfl
      (by decide) rfl
  · exact (result_outcomes (mkRPCState [] none none (some .unavailable) none)
      false).2.2.2 rfl (by decide) rfl

/-- C5: whenever `call.operate()` returns `False` — for SendMessage and
SendCloseFromClient in the request-iterator pump, and for ReceiveMessage in
the rendezvous `_next` — the kind that was tentatively added to `due` for
that submission is removed again, restoring `due` and the rest of the state
to exactly what they were before the submission, and the submitting code
completes without raising (the pump returns quietly). -/
theorem operate_refusal_rollback (st : RPCState) :
    (OperationType.send_message ∉ st.due →
      pump_submit_send_message false st = (st, true)) ∧
    (OperationType.send_close_from_client ∉ st.due →
      pump_submit_send_close false st = st) ∧
    (OperationType.receive_message ∉ st.due →
      next_submit_receive_message false st = st) := by
  refine ⟨?_, ?_, ?_⟩
  · intro h
    simp [pump_submit_send_message, setAdd, h]
  · intro h
    simp [pump_submit_send_close, setAdd, h]
  · intro h
    simp [next_submit_receive_message, setAdd, h]

/-- Witness for C5 at a fresh stream-stream state, whose due set contains
none of the three kinds. -/
theorem operate_refusal_rollback_witness :
    pump_submit_send_message false
      (mkRPCState STREAM_STREAM_INITIAL_DUE none none none none) =
      (mkRPCState STREAM_STREAM_INITIAL_DUE none none none none, true) ∧
    pump_submit_send_close false
      (mkRPCState STREAM_STREAM_INITIAL_DUE none none none none) =
      mkRPCState STREAM_STREAM_INITIAL_DUE none none none none ∧
    next_submit_receive_message false
      (mkRPCState STREAM_STREAM_INITIAL_DUE none none none none) =
      mkRPCState STREAM_STREAM_INITIAL_DUE none none none none := by
  have h := operate_refusal_rollback
    (mkRPCState STREAM_STREAM_INITIAL_DUE none none none none)
  exact ⟨h.1 (by decide), h.2.1 (by decide), h.2.2 (by decide)⟩

/-- C7: when the request serializer returns nil, every unary-request
invocation path — unary-unary `__call__`/`with_call` (both via `_blocking`),
unary-unary `future`, unary-stream `__call__`, and the single-threaded
unary-stream `__call__` — raises an inactive RPC error whose code is
`INTERNAL` and whose details are `'Exception serializing request!'`, and no
call is created on the transport (neither `segregated_call` nor
`integrated_call` is reached). -/
theorem serialization_failure_no_transport (now : Nat) (request : String)
    (timeout : Option Nat) (request_serializer : String → Option String)
    (h : request_serializer request = none) :
    unary_unary_blocking now request timeout request_serializer =
      .raised (some serialization_failure_state) ∧
    unary_unary_future now request timeout request_serializer =
      .raised (some serialization_failure_state) ∧
    unary_stream_call now request timeout request_serializer =
      .raised (some serialization_failure_state) ∧
    single_threaded_unary_stream_call request request_serializer =
      .raised (some serialization_failure_state) ∧
    serialization_failure_state.code = some .internal ∧
    serialization_failure_state.details =
      some "Exception serializing request!" := by
  refine ⟨?_, ?_, ?_, ?_, rfl, rfl⟩ <;>
    simp [unary_unary_blocking, unary_unary_future, unary_stream_call,
      single_threaded_unary_stream_call, unary_unary_prepare,
      start_unary_request, h]

/-- Witness for C7 with the always-failing serializer. -/
theorem serialization_failure_no_transport_witness :
    unary_unary_blocking 0 "ping" none (fun _ => none) =
      .raised (some serialization_failure_state) ∧
    unary_unary_future 0 "ping" none (fun _ => none) =
      .raised (some serialization_failure_state) ∧
    unary_stream_call 0 "ping" none (fun _ => none) =
      .raised (some serialization_failure_state) ∧
    single_threaded_unary_stream_call "ping" (fun _ => none) =
      .raised (some serialization_failure_state) ∧
    serialization_failure_state.code = some .internal := by
  have h := serialization_failure_no_transport 0 "ping" none (fun _ => none)
    rfl
  exact ⟨h.1, h.2.1, h.2.2.1, h.2.2.2.1, h.2.2.2.2.1⟩

/-- C9: `with_wait_for_ready` over flags whose bits lie inside `used_mask`:
a nil argument returns the flags unchanged; an explicit `True` sets both the
wait-for-ready bit and the explicitly-set bit; an explicit `False` clears
the wait-for-ready bit and sets the explicitly-set bit; in every case all
other bits are unaffected. -/
theorem with_wait_for_ready_spec (i j used_mask f : Nat) (hij : i ≠ j)
    (hmi : used_mask.testBit i = true) (hmj : used_mask.testBit j = true)
    (hf : f &&& used_mask = f) :
    with_wait_for_ready used_mask (2 ^ i) (2 ^ j) f none = f ∧
    (with_wait_for_ready used_mask (2 ^ i) (2 ^ j) f
      (some true)).testBit i = true ∧
    (with_wait_for_ready used_mask (2 ^ i) (2 ^ j) f
      (some true)).testBit j = true ∧
    (∀ k, k ≠ i → k ≠ j →
      (with_wait_for_ready used_mask (2 ^ i) (2 ^ j) f
        (some true)).testBit k = f.testBit k) ∧
    (with_wait_for_ready used_mask (2 ^ i) (2 ^ j) f
      (some false)).testBit i = false ∧
    (with_wait_for_ready used_mask (2 ^ i) (2 ^ j) f
      (some false)).testBit j = true ∧
    (∀ k, k ≠ i → k ≠ j →
      (with_wait_for_ready used_mask (2 ^ i) (2 ^ j) f
        (some false)).testBit k = f.testBit k) := by
  have hof : ∀ k, f.testBit k = (f.testBit k && used_mask.testBit k) := by
    intro k
    conv_lhs => rw [← hf, Nat.testBit_land]
  refine ⟨rfl, ?_, ?_, ?_, ?_, ?_, ?_⟩
  · simp [with_wait_for_ready, Nat.testBit_land, Nat.testBit_lor,
      Nat.testBit_two_pow_self, hmi]
  · simp [with_wait_for_ready, Nat.testBit_land, Nat.testBit_lor,
      Nat.testBit_two_pow_self, hmj]
  · intro k hki hkj
    rw [with_wait_for_ready, Nat.testBit_land, Nat.testBit_lor,
      Nat.testBit_lor, Nat.testBit_two_pow_of_ne (fun he => hki he.symm),
      Nat.testBit_two_pow_of_ne (fun he => hkj he.symm)]
    simp [← hof k]
  · rw [with_wait_for_ready, Nat.testBit_land, Nat.testBit_lor,
      Nat.testBit_ldiff, Nat.testBit_two_pow_self,
      Nat.testBit_two_pow_of_ne (fun he => hij he.symm)]
    simp
  · simp [with_wait_for_ready, Nat.testBit_land, Nat.testBit_lor,
      Nat.testBit_ldiff, Nat.testBit_two_pow_self, hmj]
  · intro k hki hkj
    rw [with_wait_for_ready, Nat.testBit_land, Nat.testBit_lor,
      Nat.testBit_ldiff, Nat.testBit_two_pow_of_ne (fun he => hki he.symm),
      Nat.testBit_two_pow_of_ne (fun he => hkj he.symm)]
    simp [← hof k]

/-- Witness for C9 with bit positions 5 and 6, `used_mask = 0x60`, and
flags with the wait-for-ready bit already set. -/
theorem with_wait_for_ready_spec_witness :
    with_wait_for_ready 96 (2 ^ 5) (2 ^ 6) 32 none = 32 ∧
    (with_wait_for_ready 96 (2 ^ 5) (2 ^ 6) 32 (some true)).testBit 5 =
      true ∧
    (with_wait_for_ready 96 (2 ^ 5) (2 ^ 6) 32 (some true)).testBit 6 =
      true ∧
    (with_wait_for_ready 96 (2 ^ 5) (2 ^ 6) 32 (some true)).testBit 0 =
      Nat.testBit 32 0 ∧
    (with_wait_for_ready 96 (2 ^ 5) (2 ^ 6) 32 (some false)).testBit 5 =
      false ∧
    (with_wait_for_ready 96 (2 ^ 5) (2 ^ 6) 32 (some false)).testBit 6 =
      true ∧
    (with_wait_for_ready 96 (2 ^ 5) (2 ^ 6) 32 (some false)).testBit 0 =
      Nat.testBit 32 0 := by
  have h := with_wait_for_ready_spec 5 6 96 32 (by decide) (by decide)
    (by decide) (by decide)
  exact ⟨h.1, h.2.1, h.2.2.1, h.2.2.2.1 0 (by decide) (by decide),
    h.2.2.2.2.1, h.2.2.2.2.2.1, h.2.2.2.2.2.2 0 (by decide) (by decide)⟩

/-- `_abort` is the identity on an already-terminal state. -/
theorem abort_of_terminal (st : RPCState) (c : StatusCode)
    (h : st.code = some c) (k : StatusCode) (d : String) :
    abort st k d = st := by
  unfold abort
  rw [if_neg (by simp [h])]

/-- A single dispatcher step never changes the code or the details of an
already-terminal state. -/
theorem apply_batch_operation_preserves_terminal
    (response_deserializer : String → Option String) (st : RPCState)
    (cbs : List Nat) (op : BatchOperation) (c : StatusCode)
    (h : st.code = some c) :
    (apply_batch_operation response_deserializer st cbs op).1.code = some c ∧
    (apply_batch_operation response_deserializer st cbs op).1.details =
      st.details := by
  unfold apply_batch_operation
  cases htype : op.type
  case send_initial_metadata => exact ⟨h, rfl⟩
  case send_message => exact ⟨h, rfl⟩
  case send_close_from_client => exact ⟨h, rfl⟩
  case receive_initial_metadata => exact ⟨h, rfl⟩
  case receive_message =>
    cases hmsg : op.message
    case none => exact ⟨h, rfl⟩
    case some serialized =>
      dsimp only
      cases hdes : response_deserializer serialized
      case none =>
        dsimp only
        rw [abort_of_terminal st c h]
        exact ⟨h, rfl⟩
      case some response => exact ⟨h, rfl⟩
  case receive_status_on_client =>
    dsimp only
    rw [if_neg (show ¬ st.code = none by simp [h])]
    cases hcb : st.callbacks
    case none => exact ⟨h, rfl⟩
    case some pending => exact ⟨h, rfl⟩

/-- The dispatcher loop never changes the code or the details of an
already-terminal state. -/
theorem handle_event_ops_preserves_terminal
    (response_deserializer : String → Option String)
    (ops : List BatchOperation) :
    ∀ (st : RPCState) (cbs : List Nat) (c : StatusCode), st.code = some c →
    (handle_event_ops response_deserializer ops st cbs).1.code = some c ∧
    (handle_event_ops response_deserializer ops st cbs).1.details =
      st.details := by
  induction ops with
  | nil => intro st cbs c h; exact ⟨h, rfl⟩
  | cons op rest ih =>
    intro st cbs c h
    unfold handle_event_ops
    by_cases hmem : op.type ∈ st.due
    · rw [if_pos hmem]
      have hstep := apply_batch_operation_preserves_terminal
        response_deserializer { st with due := st.due.erase op.type } cbs op
        c h
      cases herr : (apply_batch_operation response_deserializer
          { st with due := st.due.erase op.type } cbs op).2.2
      · simp only [herr, Bool.false_eq_true, if_neg, ite_false]
        have hrest := ih
          (apply_batch_operation response_deserializer
            { st with due := st.due.erase op.type } cbs op).1
          (apply_batch_operation response_deserializer
            { st with due := st.due.erase op.type } cbs op).2.1
          c hstep.1
        exact ⟨hrest.1, hrest.2.trans hstep.2⟩
      · simp only [herr, ite_true]
        exact hstep
    · rw [if_neg hmem]
      exact ⟨h, rfl⟩

/-- C1: finality of the terminal status.  Once `state.code` is non-nil, a
dispatched completion event changes neither `state.code` nor
`state.details`, and `_abort` leaves the whole state untouched; in
particular, when two receive-status events with different codes are
dispatched in sequence, the code recorded by the first is the one every
later observer sees. -/
theorem terminal_code_and_details_final
    (response_deserializer : String → Option String) (event : Event)
    (st : RPCState) (c : StatusCode) (k : StatusCode) (d : String)
    (h : st.code = some c) :
    (handle_event response_deserializer event st).1.code = some c ∧
    (handle_event response_deserializer event st).1.details = st.details ∧
    abort st k d = st := by
  have hops := handle_event_ops_preserves_terminal response_deserializer
    event.batch_operations st [] c h
  exact ⟨hops.1, hops.2, abort_of_terminal st c h k d⟩

/-- A second receive-status event, carrying transport-native code 1
(`CANCELLED`) and fresh details, dispatched against an already-`OK` state in
the C1 witness. -/
def c1_late_status_event : Event :=
  { batch_operations :=
      [⟨.receive_status_on_client, [], none, [], 1, "cancelled", ""⟩] }

/-- The already-terminated (`OK`) state of the C1 witness. -/
def c1_terminated_state : RPCState :=
  mkRPCState [.receive_status_on_client] (some []) (some []) (some .ok)
    (some "ok details")

/-- Witness for C1: a state already terminated with `OK` receives a second
status event carrying native code 1 (`CANCELLED`); the recorded code stays
`OK` and an `_abort` is a no-op. -/
theorem terminal_code_and_details_final_witness :
    (handle_event (fun s => some s) c1_late_status_event
      c1_terminated_state).1.code = some .ok ∧
    (handle_event (fun s => some s) c1_late_status_event
      c1_terminated_state).1.details = c1_terminated_state.details ∧
    abort c1_terminated_state .cancelled "late" = c1_terminated_state := by
  exact terminal_code_and_details_final (fun s => some s)
    c1_late_status_event c1_terminated_state .ok .cancelled "late" rfl

/-- The event of the C2 failing input: a ReceiveStatusOnClient completion
whose transport-native code 42 has no entry in the recognised mapping and
whose transport-supplied details are `"foo"`. -/
def c2_event : Event :=
  { batch_operations :=
      [⟨.receive_status_on_client, [], none, [], 42, "foo", ""⟩] }

/-- The non-terminal state of the C2 failing input. -/
def c2_state : RPCState :=
  mkRPCState STREAM_STREAM_INITIAL_DUE none none none none

/-- C2 (code bug): on an unrecognised transport-native code the dispatcher
does set `state.code` to `UNKNOWN`, but line 163 of `_channel.py` passes
`code` — the result of the failed dictionary lookup, which is always `None`
on this branch — to `_unknown_code_details` instead of
`batch_operation.code()`, so the recorded details read
`Server sent unknown code None and details "foo"` instead of
`Server sent unknown code 42 and details "foo"` claimed from the helper's
`unknown_cygrpc_code` parameter. -/
theorem unknown_code_details_formats_python_none :
    (handle_event (fun s => some s) c2_event c2_state).1.code =
      some .unknown ∧
    (handle_event (fun s => some s) c2_event c2_state).1.details =
      some "Server sent unknown code None and details \"foo\"" ∧
    (handle_event (fun s => some s) c2_event c2_state).1.details ≠
      some "Server sent unknown code 42 and details \"foo\"" := by
  refine ⟨rfl, rfl, by decide⟩

theorem mem_setAdd_self (s : List OperationType) (x : OperationType) :
    x ∈ setAdd s x := by
  unfold setAdd
  by_cases h : x ∈ s
  · rwa [if_pos h]
  · rw [if_neg h]; exact List.mem_cons_self x s

theorem mem_setAdd_iff (s : List OperationType) (x y : OperationType) :
    y ∈ setAdd s x ↔ y = x ∨ y ∈ s := by
  unfold setAdd
  by_cases h : x ∈ s
  · rw [if_pos h]
    constructor
    · exact Or.inr
    · rintro (rfl | hy)
      · exact h
      · exact hy
  · rw [if_neg h]
    exact List.mem_cons

theorem setAdd_nodup (s : List OperationType) (x : OperationType)
    (h : s.Nodup) : (setAdd s x).Nodup := by
  unfold setAdd
  by_cases hx : x ∈ s
  · rwa [if_pos hx]
  · rw [if_neg hx]
    exact List.nodup_cons.mpr ⟨hx, h⟩

theorem setAdd_erase_of_not_mem (s : List OperationType) (x : OperationType)
    (h : x ∉ s) : (setAdd s x).erase x = s := by
  unfold setAdd
  rw [if_neg h, List.erase_cons_head]

/-- The invariant holds in every initial configuration. -/
theorem pump_inv_init (s : PumpConfig) (h : PumpInit s) : PumpInv s := by
  obtain ⟨hrpc, hphase, hout⟩ := h
  rcases s with ⟨rpc, phase, out⟩
  dsimp at hrpc hphase hout
  subst hphase hout
  rcases hrpc with h | h <;> subst h <;>
    exact ⟨by decide, by decide, by decide, fun _ => rfl⟩

/-- The invariant is preserved by every pump / dispatcher step. -/
theorem pump_inv_step (s t : PumpConfig) (hinv : PumpInv s)
    (hstep : PumpStep s t) : PumpInv t := by
  obtain ⟨hnodup, hle, hiff, hpull⟩ := hinv
  cases hstep with
  | submit_ok hphase hcode hcancel =>
      have hout : s.outstanding_send = 0 := hpull hphase
      refine ⟨setAdd_nodup _ _ hnodup, ?_, ?_, ?_⟩
      · show s.outstanding_send + 1 ≤ 1
        omega
      · show OperationType.send_message ∈ setAdd s.rpc.due .send_message ↔
          s.outstanding_send + 1 = 1
        rw [hout]
        exact ⟨fun _ => rfl, fun _ => mem_setAdd_self _ _⟩
      · intro hph
        exact PumpPhase.noConfusion hph
  | submit_refused hphase hcode hcancel =>
      have hout : s.outstanding_send = 0 := hpull hphase
      have hmem : OperationType.send_message ∉ s.rpc.due := by
        intro hm
        rw [hiff, hout] at hm
        exact absurd hm (by decide)
      rw [setAdd_erase_of_not_mem _ _ hmem]
      exact ⟨hnodup, hle, hiff, fun hph => by simp at hph⟩
  | serialize_fail hphase hcode hcancel =>
      have hdue : (abort s.rpc .internal
          "Exception serializing request!").due = s.rpc.due := by
        unfold abort
        by_cases hc : s.rpc.code = none
        · rw [if_pos hc]
        · rw [if_neg hc]
      refine ⟨?_, hle, ?_, fun hph => by simp at hph⟩
      · rw [hdue]; exact hnodup
      · rw [hdue]; exact hiff
  | iterator_fail hphase =>
      have hdue : (abort s.rpc .unknown
          "Exception iterating requests!").due = s.rpc.due := by
        unfold abort
        by_cases hc : s.rpc.code = none
        · rw [if_pos hc]
        · rw [if_neg hc]
      refine ⟨?_, hle, ?_, fun hph => by simp at hph⟩
      · rw [hdue]; exact hnodup
      · rw [hdue]; exact hiff
  | pull_terminal hphase hterm =>
      exact ⟨hnodup, hle, hiff, fun hph => by simp at hph⟩
  | close_submit operate_ok hphase hcode =>
      have hmemiff : OperationType.send_message ∈
          (pump_submit_send_close operate_ok s.rpc).due ↔
          OperationType.send_message ∈ s.rpc.due := by
        unfold pump_submit_send_close
        cases operate_ok
        · simp only [Bool.false_eq_true, if_neg, ite_false]
          rw [List.mem_erase_of_ne (by decide), mem_setAdd_iff]
          simp
        · simp only [ite_true]
          rw [mem_setAdd_iff]
          simp
      have hnd : (pump_submit_send_close operate_ok s.rpc).due.Nodup := by
        unfold pump_submit_send_close
        cases operate_ok
        · simp only [Bool.false_eq_true, if_neg, ite_false]
          exact (setAdd_nodup _ _ hnodup).erase _
        · simp only [ite_true]
          exact setAdd_nodup _ _ hnodup
      exact ⟨hnd, hle, hmemiff.trans hiff, fun hph => by simp at hph⟩
  | wake_continue hphase hcode hdue =>
      have hout : s.outstanding_send = 0 := by
        rcases Nat.lt_or_ge s.outstanding_send 1 with h1 | h1
        · omega
        · exfalso; exact hdue (hiff.mpr (by omega))
      exact ⟨hnodup, hle, hiff, fun _ => hout⟩
  | wake_terminal hphase hcode =>
      exact ⟨hnodup, hle, hiff, fun hph => by simp at hph⟩
  | complete_send n hout =>
      have hn : n = 0 := by omega
      subst hn
      refine ⟨hnodup.erase _, ?_, ?_, ?_⟩
      · show (0 : Nat) ≤ 1
        omega
      · show OperationType.send_message ∈
          s.rpc.due.erase .send_message ↔ (0 : Nat) = 1
        constructor
        · intro hm
          exact absurd hm hnodup.not_mem_erase
        · intro h01
          exact absurd h01 (by decide)
      · intro _
        rfl
  | env rpc2 hmem hnd =>
      exact ⟨hnd, hle, hmem.trans hiff, hpull⟩

/-- Every reachable configuration satisfies the invariant. -/
theorem pump_reachable_inv (s : PumpConfig) (h : PumpReachable s) :
    PumpInv s := by
  induction h with
  | init s h => exact pump_inv_init s h
  | step s t hs hstep ih => exact pump_inv_step s t ih hstep

/-- C6: per-message backpressure.  `_consume_request_iterator` adds
SendMessage to `due` only through Python `set.add` (a no-op when present)
and, after a successful submission, waits under the state condition until
SendMessage has left `due` or a terminal code is set before pulling the
next request; hence in every reachable configuration of a
streaming-request call, SendMessage occurs at most once in `due` and at
most one SendMessage batch is in flight. -/
theorem send_message_backpressure (s : PumpConfig)
    (h : PumpReachable s) :
    s.rpc.due.count .send_message ≤ 1 ∧ s.outstanding_send ≤ 1 := by
  have hinv := pump_reachable_inv s h
  exact ⟨List.nodup_iff_count_le_one.mp hinv.1 _, hinv.2.1⟩

/-- Witness for C6 at the initial configuration of a stream-unary call. -/
theorem send_message_backpressure_witness :
    PumpInit ⟨mkRPCState STREAM_UNARY_INITIAL_DUE none none none none,
      .pulling, 0⟩ ∧
    (mkRPCState STREAM_UNARY_INITIAL_DUE none none none
      none).due.count .send_message ≤ 1 := by
  have hini : PumpInit ⟨mkRPCState STREAM_UNARY_INITIAL_DUE none none none
      none, .pulling, 0⟩ := ⟨Or.inl rfl, rfl, rfl⟩
  exact ⟨hini,
    (send_message_backpressure _ (PumpReachable.init _ hini)).1⟩

end GrpcChannel
